import Mathlib

/-!
Shallow embedding of the measurement engine of `network/quality.go`
(package `network` of P-0001/networkquality, version 1.0.1).

Modelling conventions:
* Go `time.Duration` values are integer nanoseconds, embedded as `Int`
  (`Nat` where the source value is an elapsed time, hence non-negative).
* The network is an explicit environment (`NetEnv`): every HTTP attempt's
  outcome is an input to the model, so the stage functions become pure.
* Go computes bitrates in `float64` and stores `math.Round(mbps*1000)/1000`,
  an integer multiple of 1/1000; the model carries that value exactly as the
  integer number of thousandths of a Mbps (`computeMilliMbps`), with the
  elapsed phase time in nanoseconds (Go's `duration.Seconds()` equals
  nanoseconds / 1e9).
* Side effects relevant to the specification (HTTP requests issued, pacing
  sleeps) are recorded in an event trace.  Within one concurrent phase the
  trace lists worker 0's attempts, then worker 1's, and so on — the claims
  under study only inspect membership and the ordering between phases, which
  the code fixes (each stage blocks until the previous one finished).
-/

namespace NetworkQuality

/-- Outcome of one latency-probe iteration of `measureIdleLatency`:
`http.NewRequestWithContext` can fail (no request is sent), `client.Do`
can fail (a request was sent but got no usable response), or the probe
succeeds with the measured wall-clock elapsed time in nanoseconds. -/
inductive ProbeOutcome where
  | reqError
  | doError
  | success (elapsedNs : Nat)
  deriving DecidableEq, Repr

/-- Outcome of one download-worker iteration of `measureDownloadSpeed`:
request construction failure, transport failure, or a response whose body
yielded `bytesRead` bytes via `io.Copy`. -/
inductive DownloadOutcome where
  | reqError
  | doError
  | body (bytesRead : Nat)
  deriving DecidableEq, Repr

/-- Outcome of one upload-worker iteration of `measureUploadSpeed`:
request construction failure, transport failure, or a response with the
given HTTP status code. -/
inductive UploadOutcome where
  | reqError
  | doError
  | response (statusCode : Int)
  deriving DecidableEq, Repr

/-- Externally visible effects of the engine: a GET to the latency-probe
URL, the 100ms pacing sleep of the latency sampler, a GET to the download
URL, a POST to an upload URL. -/
inductive NetEvent where
  | latencyGet
  | pacingSleep
  | downloadGet
  | uploadPost
  deriving DecidableEq, Repr

/-- Go struct `TestConfig` (quality.go lines 26-32).  `TestDuration` is in
nanoseconds, as Go's `time.Duration`. -/
structure TestConfig where
  TestDuration : Int
  TestServers : List String
  UploadServers : List String
  UploadChunkSize : Int
  NumConnections : Int
  deriving DecidableEq, Repr

/-- Go struct `QualityResult` (quality.go lines 17-23).  The two capacity
fields hold the Go `float64` Mbps value — always an integer multiple of
1/1000 after `math.Round(mbps*1000)/1000` — scaled by 1000 so the model
stays in `Nat`; the latency fields hold whole milliseconds, the integer
value `float64(d.Milliseconds())` always is. -/
structure QualityResult where
  UplinkCapacity : Nat
  DownlinkCapacity : Nat
  IdleLatency : Nat
  Responsiveness : String
  ResponsivenessMs : Nat
  deriving DecidableEq, Repr

/-- Go function `DefaultConfig` (quality.go lines 35-49). -/
def DefaultConfig : TestConfig where
  TestDuration := 10 * 1000000000
  NumConnections := 4
  TestServers :=
    ["https://speed.cloudflare.com/__down?bytes=10000000",
     "https://www.google.com/generate_204"]
  UploadServers :=
    ["https://httpbin.org/post",
     "https://speed.cloudflare.com/__up?bytes=10000000"]
  UploadChunkSize := 512 * 1024

/-- Environment supplying every network outcome a run consumes.  Upload
fields are indexed by the deadline budget (nanoseconds after phase start)
the code computes, so that which budget `measureUploadSpeed` uses is
observable in the model. -/
structure NetEnv where
  idleProbes : List ProbeOutcome
  loadedProbes : List ProbeOutcome
  downloadWorkerOutcomes : Nat → List DownloadOutcome
  downloadElapsedNs : Nat
  uploadWorkerOutcomesAt : Int → Nat → List UploadOutcome
  uploadElapsedNsAt : Int → Nat

/-- One iteration of the accumulation loop of `measureIdleLatency`
(quality.go lines 114-133): a failed probe leaves the running
(totalLatencyNs, successCount) pair unchanged, a successful one adds its
elapsed time and bumps the count. -/
def latencyStep (acc : Nat × Nat) (p : ProbeOutcome) : Nat × Nat :=
  match p with
  | .reqError => acc
  | .doError => acc
  | .success elapsedNs => (acc.1 + elapsedNs, acc.2 + 1)

/-- Go function `measureIdleLatency` (quality.go lines 105-141) over the
outcomes of its (in the source, exactly 10) probe iterations.  On zero
successes it fails; otherwise `avgLatency := totalLatency / successCount`
(integer nanosecond division) and the result is
`avgLatency.Milliseconds()`, i.e. a further truncating division by 1e6. -/
def measureIdleLatency (probes : List ProbeOutcome) : Except String Nat :=
  let acc := probes.foldl latencyStep (0, 0)
  if acc.2 = 0 then .error "all latency tests failed"
  else .ok (acc.1 / acc.2 / 1000000)

/-- Event trace of the `measureIdleLatency` loop: a request-construction
failure issues no request and sleeps not; a transport failure issues the
GET and goes straight to the next iteration (the `continue` skips the
sleep); a success issues the GET and then sleeps 100ms (quality.go lines
114-133). -/
def idleLatencyEvents : List ProbeOutcome → List NetEvent
  | [] => []
  | .reqError :: rest => idleLatencyEvents rest
  | .doError :: rest => .latencyGet :: idleLatencyEvents rest
  | .success _ :: rest => .latencyGet :: .pacingSleep :: idleLatencyEvents rest

/-- Nearest integer to `a / b` for naturals, ties rounding up — which is
exactly Go `math.Round` (ties away from zero) on the non-negative values
arising here. -/
def roundNearestDiv (a b : Nat) : Nat :=
  (2 * a + b) / (2 * b)

/-- The value `math.Round(mbps*1000)/1000` scaled by 1000, computed
exactly: with `elapsedNs` nanoseconds of phase time,
`mbps = totalBytes*8 / ((elapsedNs/1e9) * 1e6)`, so
`mbps * 1000 = totalBytes * 8000000 / elapsedNs`. -/
def computeMilliMbps (totalBytes elapsedNs : Nat) : Nat :=
  roundNearestDiv (totalBytes * 8000000) elapsedNs

/-- Byte total of one download worker's loop (quality.go lines 168-195):
failed attempts contribute nothing, successful responses contribute the
bytes `io.Copy` read from the body. -/
def downloadWorkerBytes (attempts : List DownloadOutcome) : Nat :=
  attempts.foldl
    (fun acc a =>
      match a with
      | .reqError => acc
      | .doError => acc
      | .body n => acc + n) 0

/-- Upload chunk size actually used: `config.UploadChunkSize`, replaced by
512KB when non-positive (quality.go lines 216-219). -/
def effectiveChunkSize (config : TestConfig) : Nat :=
  (if config.UploadChunkSize ≤ 0 then (512 * 1024 : Int)
   else config.UploadChunkSize).toNat

/-- Byte total of one upload worker's loop (quality.go lines 238-273): an
attempt adds `chunkSize` to the shared total exactly when its response
status satisfies `200 <= status && status < 400`; failed requests and
out-of-range statuses add nothing. -/
def uploadWorkerBytes (chunkSize : Nat) (attempts : List UploadOutcome) : Nat :=
  attempts.foldl
    (fun acc a =>
      match a with
      | .reqError => acc
      | .doError => acc
      | .response s => if 200 ≤ s ∧ s < 400 then acc + chunkSize else acc) 0

/-- Bytes accumulated across the `NumConnections` download workers. -/
def totalDownloadBytes (config : TestConfig) (env : NetEnv) : Nat :=
  ((List.range config.NumConnections.toNat).map
    (fun i => downloadWorkerBytes (env.downloadWorkerOutcomes i))).sum

/-- Bytes accumulated across the `NumConnections` upload workers for a
given deadline budget. -/
def totalUploadBytes (config : TestConfig) (budgetNs : Int) (env : NetEnv) : Nat :=
  ((List.range config.NumConnections.toNat).map
    (fun i => uploadWorkerBytes (effectiveChunkSize config)
      (env.uploadWorkerOutcomesAt budgetNs i))).sum

/-- Go function `measureDownloadSpeed` (quality.go lines 144-208).  The
loaded-latency goroutine's error is discarded: `latency, _ :=
measureIdleLatency(...)`, and on failure that call returns 0, so a failed
loaded sample records 0 ms.  The function itself never returns an error. -/
def measureDownloadSpeed (config : TestConfig) (env : NetEnv) :
    Except String (Nat × Nat) :=
  let loadedLatency :=
    match measureIdleLatency env.loadedProbes with
    | .error _ => 0
    | .ok l => l
  .ok (computeMilliMbps (totalDownloadBytes config env) env.downloadElapsedNs,
       loadedLatency)

/-- Go function `measureUploadSpeed` (quality.go lines 211-285): fails
before any worker starts when no upload servers are configured; the phase
deadline is `config.TestDuration / 2` after start (line 232, Go integer
division); after the workers join it fails if the elapsed time is zero,
else reports the rounded bitrate. -/
def measureUploadSpeed (config : TestConfig) (env : NetEnv) : Except String Nat :=
  if config.UploadServers.length = 0 then .error "no upload servers configured"
  else
    let budgetNs := Int.tdiv config.TestDuration 2
    let elapsedNs := env.uploadElapsedNsAt budgetNs
    if elapsedNs = 0 then .error "upload duration was zero"
    else .ok (computeMilliMbps (totalUploadBytes config budgetNs env) elapsedNs)

/-- Requests issued by one download-worker attempt: a construction failure
sends nothing, otherwise one GET to the download URL. -/
def downloadAttemptEvents (a : DownloadOutcome) : List NetEvent :=
  match a with
  | .reqError => []
  | .doError => [.downloadGet]
  | .body _ => [.downloadGet]

/-- Requests issued by one upload-worker attempt: a construction failure
sends nothing, otherwise one POST. -/
def uploadAttemptEvents (a : UploadOutcome) : List NetEvent :=
  match a with
  | .reqError => []
  | .doError => [.uploadPost]
  | .response _ => [.uploadPost]

/-- Events of one download worker's attempt sequence. -/
def downloadWorkerEvents : List DownloadOutcome → List NetEvent
  | [] => []
  | a :: rest => downloadAttemptEvents a ++ downloadWorkerEvents rest

/-- Events of one upload worker's attempt sequence.  The loop retries a
failed attempt immediately: no sleep event ever separates attempts. -/
def uploadWorkerEvents : List UploadOutcome → List NetEvent
  | [] => []
  | a :: rest => uploadAttemptEvents a ++ uploadWorkerEvents rest

/-- Events of the download stage: the parallel workers' GETs together with
the concurrent loaded-latency sample's events (serialised workers-first;
the claims only inspect membership and stage boundaries). -/
def downloadStageEvents (config : TestConfig) (env : NetEnv) : List NetEvent :=
  ((List.range config.NumConnections.toNat).map
    (fun i => downloadWorkerEvents (env.downloadWorkerOutcomes i))).flatten
    ++ idleLatencyEvents env.loadedProbes

/-- Events of the upload stage: empty when the configured-server check
fails before any worker starts, else the workers' POSTs for the
`TestDuration / 2` budget. -/
def uploadStageEvents (config : TestConfig) (env : NetEnv) : List NetEvent :=
  if config.UploadServers.length = 0 then []
  else
    ((List.range config.NumConnections.toNat).map
      (fun i => uploadWorkerEvents
        (env.uploadWorkerOutcomesAt (Int.tdiv config.TestDuration 2) i))).flatten

/-- Go function `RunQualityTest` (quality.go lines 52-102), returning the
result (or wrapped stage error) together with the trace of network events
the run performed.  A `none` configuration is replaced by `DefaultConfig`
before anything else (lines 53-55); the two configuration checks precede
all network activity (lines 57-63). -/
def RunQualityTest (configOpt : Option TestConfig) (env : NetEnv) :
    Except String QualityResult × List NetEvent :=
  let config :=
    match configOpt with
    | none => DefaultConfig
    | some c => c
  if config.TestDuration ≤ 0 then
    (.error "test duration must be positive", [])
  else if config.TestServers.length = 0 then
    (.error "no download test servers configured", [])
  else
    match measureIdleLatency env.idleProbes with
    | .error e =>
        (.error ("failed to measure idle latency: " ++ e),
         idleLatencyEvents env.idleProbes)
    | .ok idleLatency =>
      match measureDownloadSpeed config env with
      | .error e =>
          (.error ("failed to measure download speed: " ++ e),
           idleLatencyEvents env.idleProbes ++ downloadStageEvents config env)
      | .ok (downloadMbpsMilli, loadedLatency) =>
        match measureUploadSpeed config env with
        | .error e =>
            (.error ("failed to measure upload speed: " ++ e),
             idleLatencyEvents env.idleProbes ++ downloadStageEvents config env
               ++ uploadStageEvents config env)
        | .ok uploadMbpsMilli =>
            (.ok { UplinkCapacity := uploadMbpsMilli,
                   DownlinkCapacity := downloadMbpsMilli,
                   IdleLatency := idleLatency,
                   ResponsivenessMs := loadedLatency,
                   Responsiveness :=
                     if loadedLatency < 200 then "High"
                     else if loadedLatency < 1000 then "Medium"
                     else "Low" },
             idleLatencyEvents env.idleProbes ++ downloadStageEvents config env
               ++ uploadStageEvents config env)

/-- Elapsed times of the successful probes, in order: the samples the
latency mean is taken over. -/
def successSamples (probes : List ProbeOutcome) : List Nat :=
  probes.filterMap
    (fun p =>
      match p with
      | .reqError => none
      | .doError => none
      | .success t => some t)

/-- Spec-side responsiveness classifier, written from the specification's
thresholds: below 200ms High, below 1000ms Medium, else Low. -/
def classifySpec (l : Nat) : String :=
  if l < 200 then "High" else if l < 1000 then "Medium" else "Low"

/-- Nearest integer to a rational, ties rounding up (Go `math.Round` on
non-negative inputs). -/
def specNearest (x : ℚ) : ℤ := ⌊x + 1 / 2⌋

/-- Spec-side rounding of a rational to 3 decimal places. -/
def specRound3 (x : ℚ) : ℚ := (specNearest (x * 1000) : ℚ) / 1000

/-- Spec-side contribution of one upload attempt to the shared byte
total: the chunk size exactly when the status lies in [200, 400), else
nothing. -/
def uploadContribution (chunkSize : Nat) (a : UploadOutcome) : Nat :=
  match a with
  | .reqError => 0
  | .doError => 0
  | .response s => if 200 ≤ s ∧ s < 400 then chunkSize else 0

/-- Decides whether every consecutive pair of issued requests in a trace
is separated by at least one pacing delay: over the latency sampler's
event alphabet this is the absence of two adjacent GET events. -/
def gapsPaced : List NetEvent → Bool
  | .latencyGet :: .latencyGet :: _ => false
  | _ :: rest => gapsPaced rest
  | [] => true

lemma successSamples_reqError (rest : List ProbeOutcome) :
    successSamples (ProbeOutcome.reqError :: rest) = successSamples rest := rfl

lemma successSamples_doError (rest : List ProbeOutcome) :
    successSamples (ProbeOutcome.doError :: rest) = successSamples rest := rfl

lemma successSamples_success (t : Nat) (rest : List ProbeOutcome) :
    successSamples (ProbeOutcome.success t :: rest) = t :: successSamples rest := rfl

lemma foldl_latencyStep (probes : List ProbeOutcome) (a c : Nat) :
    probes.foldl latencyStep (a, c)
      = (a + (successSamples probes).sum, c + (successSamples probes).length) := by
  induction probes generalizing a c with
  | nil => simp [successSamples]
  | cons p rest ih =>
      cases p with
      | reqError => simpa [successSamples_reqError, latencyStep] using ih a c
      | doError => simpa [successSamples_doError, latencyStep] using ih a c
      | success t =>
          rw [List.foldl_cons, show latencyStep (a, c) (ProbeOutcome.success t)
              = (a + t, c + 1) from rfl, ih, successSamples_success]
          simp only [List.sum_cons, List.length_cons, Prod.mk.injEq]
          omega

lemma measureIdleLatency_eq (probes : List ProbeOutcome) :
    measureIdleLatency probes
      = if (successSamples probes).length = 0 then
          Except.error "all latency tests failed"
        else
          Except.ok ((successSamples probes).sum
            / (successSamples probes).length / 1000000) := by
  unfold measureIdleLatency
  rw [show ((0, 0) : Nat × Nat) = (0, 0) from rfl, foldl_latencyStep]
  simp

lemma roundNearestDiv_zero (b : Nat) : roundNearestDiv 0 b = 0 := by
  unfold roundNearestDiv
  rcases Nat.eq_zero_or_pos b with hb | hb
  · simp [hb]
  · rw [Nat.mul_zero, Nat.zero_add]
    exact Nat.div_eq_of_lt (by omega)

lemma computeMilliMbps_zero (ns : Nat) : computeMilliMbps 0 ns = 0 := by
  unfold computeMilliMbps
  rw [Nat.zero_mul]
  exact roundNearestDiv_zero ns

lemma roundNearestDiv_eq_floor (a b : Nat) (hb : 0 < b) :
    (roundNearestDiv a b : ℤ) = ⌊(a : ℚ) / (b : ℚ) + 1 / 2⌋ := by
  have hb2 : (0 : ℚ) < 2 * (b : ℚ) := by positivity
  have hbq : ((b : ℚ)) ≠ 0 := by positivity
  have harg : (a : ℚ) / (b : ℚ) + 1 / 2 = (2 * (a : ℚ) + b) / (2 * (b : ℚ)) := by
    field_simp
    ring
  rw [harg]
  unfold roundNearestDiv
  set n := (2 * a + b) / (2 * b) with hn
  set r := (2 * a + b) % (2 * b) with hr
  have hdm : 2 * b * n + r = 2 * a + b := Nat.div_add_mod _ _
  have hmod : r < 2 * b := Nat.mod_lt _ (by omega)
  have hdmq : 2 * (b : ℚ) * (n : ℚ) + (r : ℚ) = 2 * (a : ℚ) + (b : ℚ) := by
    exact_mod_cast hdm
  have hmodq : (r : ℚ) < 2 * (b : ℚ) := by exact_mod_cast hmod
  have hr0 : (0 : ℚ) ≤ (r : ℚ) := Nat.cast_nonneg _
  symm
  rw [Int.floor_eq_iff]
  constructor
  · rw [Int.cast_natCast, le_div_iff₀ hb2]
    linarith
  · rw [Int.cast_natCast, div_lt_iff₀ hb2]
    linarith

lemma mem_idleLatencyEvents (probes : List ProbeOutcome) (e : NetEvent)
    (h : e ∈ idleLatencyEvents probes) :
    e = NetEvent.latencyGet ∨ e = NetEvent.pacingSleep := by
  induction probes with
  | nil => simp [idleLatencyEvents] at h
  | cons p rest ih =>
      cases p with
      | reqError => exact ih (by simpa [idleLatencyEvents] using h)
      | doError =>
          rcases (by simpa [idleLatencyEvents] using h : e = NetEvent.latencyGet ∨ _) with h1 | h1
          · exact Or.inl h1
          · exact ih h1
      | success t =>
          rcases (by simpa [idleLatencyEvents] using h :
              e = NetEvent.latencyGet ∨ e = NetEvent.pacingSleep ∨ _) with h1 | h1 | h1
          · exact Or.inl h1
          · exact Or.inr h1
          · exact ih h1

lemma mem_downloadWorkerEvents (attempts : List DownloadOutcome) (e : NetEvent)
    (h : e ∈ downloadWorkerEvents attempts) : e = NetEvent.downloadGet := by
  induction attempts with
  | nil => simp [downloadWorkerEvents] at h
  | cons a rest ih =>
      rw [downloadWorkerEvents, List.mem_append] at h
      rcases h with h1 | h1
      · cases a <;> simpa [downloadAttemptEvents] using h1
      · exact ih h1

lemma mem_uploadWorkerEvents (attempts : List UploadOutcome) (e : NetEvent)
    (h : e ∈ uploadWorkerEvents attempts) : e = NetEvent.uploadPost := by
  induction attempts with
  | nil => simp [uploadWorkerEvents] at h
  | cons a rest ih =>
      rw [uploadWorkerEvents, List.mem_append] at h
      rcases h with h1 | h1
      · cases a <;> simpa [uploadAttemptEvents] using h1
      · exact ih h1

lemma mem_downloadStageEvents (config : TestConfig) (env : NetEnv) (e : NetEvent)
    (h : e ∈ downloadStageEvents config env) :
    e = NetEvent.downloadGet ∨ e = NetEvent.latencyGet ∨ e = NetEvent.pacingSleep := by
  rw [downloadStageEvents, List.mem_append] at h
  rcases h with h1 | h1
  · rw [List.mem_flatten] at h1
    obtain ⟨l, hl, hel⟩ := h1
    rw [List.mem_map] at hl
    obtain ⟨i, _, rfl⟩ := hl
    exact Or.inl (mem_downloadWorkerEvents _ _ hel)
  · rcases mem_idleLatencyEvents _ _ h1 with h2 | h2
    · exact Or.inr (Or.inl h2)
    · exact Or.inr (Or.inr h2)

lemma uploadWorkerBytes_eq_sum (chunkSize : Nat) (attempts : List UploadOutcome) :
    uploadWorkerBytes chunkSize attempts
      = (attempts.map (uploadContribution chunkSize)).sum := by
  suffices h : ∀ acc : Nat,
      attempts.foldl
        (fun acc a =>
          match a with
          | .reqError => acc
          | .doError => acc
          | .response s => if 200 ≤ s ∧ s < 400 then acc + chunkSize else acc) acc
        = acc + (attempts.map (uploadContribution chunkSize)).sum by
    simpa [uploadWorkerBytes] using h 0
  induction attempts with
  | nil => simp
  | cons a rest ih =>
      intro acc
      cases a with
      | reqError => simp [uploadContribution, ih, Nat.add_assoc]
      | doError => simp [uploadContribution, ih, Nat.add_assoc]
      | response s =>
          by_cases hs : 200 ≤ s ∧ s < 400 <;>
            simp [uploadContribution, hs, ih, Nat.add_assoc]

lemma RunQualityTest_some (config : TestConfig) (env : NetEnv) :
    RunQualityTest (some config) env
      = if config.TestDuration ≤ 0 then
          (.error "test duration must be positive", [])
        else if config.TestServers.length = 0 then
          (.error "no download test servers configured", [])
        else
          match measureIdleLatency env.idleProbes with
          | .error e =>
              (.error ("failed to measure idle latency: " ++ e),
               idleLatencyEvents env.idleProbes)
          | .ok idleLatency =>
            match measureDownloadSpeed config env with
            | .error e =>
                (.error ("failed to measure download speed: " ++ e),
                 idleLatencyEvents env.idleProbes ++ downloadStageEvents config env)
            | .ok (downloadMbpsMilli, loadedLatency) =>
              match measureUploadSpeed config env with
              | .error e =>
                  (.error ("failed to measure upload speed: " ++ e),
                   idleLatencyEvents env.idleProbes ++ downloadStageEvents config env
                     ++ uploadStageEvents config env)
              | .ok uploadMbpsMilli =>
                  (.ok { UplinkCapacity := uploadMbpsMilli,
                         DownlinkCapacity := downloadMbpsMilli,
                         IdleLatency := idleLatency,
                         ResponsivenessMs := loadedLatency,
                         Responsiveness :=
                           if loadedLatency < 200 then "High"
                           else if loadedLatency < 1000 then "Medium"
                           else "Low" },
                   idleLatencyEvents env.idleProbes ++ downloadStageEvents config env
                     ++ uploadStageEvents config env) := rfl

lemma run_some_ok_responsiveness (config : TestConfig) (env : NetEnv)
    (r : QualityResult) (h : (RunQualityTest (some config) env).1 = Except.ok r) :
    r.Responsiveness = classifySpec r.ResponsivenessMs := by
  rw [RunQualityTest_some] at h
  by_cases h1 : config.TestDuration ≤ 0
  · rw [if_pos h1] at h
    simp at h
  rw [if_neg h1] at h
  by_cases h2 : config.TestServers.length = 0
  · rw [if_pos h2] at h
    simp at h
  rw [if_neg h2] at h
  cases hidle : measureIdleLatency env.idleProbes with
  | error e =>
      rw [hidle] at h
      simp at h
  | ok i =>
      rw [hidle] at h
      cases hdl : measureDownloadSpeed config env with
      | error e =>
          rw [hdl] at h
          simp at h
      | ok dl =>
          obtain ⟨d, l⟩ := dl
          rw [hdl] at h
          cases hup : measureUploadSpeed config env with
          | error e =>
              rw [hup] at h
              simp at h
          | ok u =>
              rw [hup] at h
              simp only [Except.ok.injEq] at h
              subst h
              simp [classifySpec]

/-- Example fixtures used by the witness theorems: a small configuration
and an environment in which every stage can complete. -/
def cfgEx : TestConfig where
  TestDuration := 2000000000
  TestServers := ["https://d.example", "https://l.example"]
  UploadServers := ["https://u.example"]
  UploadChunkSize := 1000
  NumConnections := 2

/-- Environment fixture: two idle probes succeed (3ms and 5ms), one loaded
probe succeeds (250ms), each download worker reads 1.5MB, the upload
workers see one good and one bad status each, both phases last 1s. -/
def envEx : NetEnv where
  idleProbes := [.success 3000000, .doError, .success 5000000, .reqError,
    .doError, .doError, .doError, .doError, .doError, .doError]
  loadedProbes := [.success 250000000, .doError, .doError, .doError,
    .doError, .doError, .doError, .doError, .doError, .doError]
  downloadWorkerOutcomes := fun _ => [.body 1000000, .doError, .body 500000]
  downloadElapsedNs := 1000000000
  uploadWorkerOutcomesAt := fun _ _ =>
    [.response 200, .response 404, .doError, .response 302]
  uploadElapsedNsAt := fun _ => 1000000000

/-- Environment fixture in which every loaded-latency probe fails. -/
def envLoadedFail : NetEnv :=
  { envEx with
    loadedProbes := [.doError, .doError, .doError, .doError, .doError,
      .doError, .doError, .doError, .doError, .doError] }

/-- Claim C1: for every completed run of RunQualityTest the
responsivenessLabel is derived purely from loadedLatencyMs by the
thresholds <200 High, <1000 Medium, else Low; in particular 199 maps to
High, 200 and 999 to Medium, 1000 to Low. -/
theorem responsiveness_label_from_loaded_latency :
    (∀ (configOpt : Option TestConfig) (env : NetEnv) (r : QualityResult),
        (RunQualityTest configOpt env).1 = Except.ok r →
        r.Responsiveness = classifySpec r.ResponsivenessMs)
  ∧ classifySpec 199 = "High" ∧ classifySpec 200 = "Medium"
  ∧ classifySpec 999 = "Medium" ∧ classifySpec 1000 = "Low" := by
  refine ⟨?_, by decide, by decide, by decide, by decide⟩
  intro configOpt env r h
  cases configOpt with
  | none => exact run_some_ok_responsiveness DefaultConfig env r h
  | some c => exact run_some_ok_responsiveness c env r h

/-- Witness for claim C1: a concrete completed run whose label is the
classifier's value at its own loaded latency. -/
theorem responsiveness_label_from_loaded_latency_witness :
    ∃ r : QualityResult, (RunQualityTest (some cfgEx) envEx).1 = Except.ok r
      ∧ r.Responsiveness = classifySpec r.ResponsivenessMs := by
  refine ⟨{ UplinkCapacity := 32, DownlinkCapacity := 24000, IdleLatency := 4,
            Responsiveness := "Medium", ResponsivenessMs := 250 }, rfl, ?_⟩
  exact responsiveness_label_from_loaded_latency.1 (some cfgEx) envEx _ rfl

/-- Claim C2: over the 10 latency-probe outcomes, the sampler fails with
the all-samples-failed error exactly when no probe succeeds; otherwise it
returns the arithmetic mean of the successful samples in integer
milliseconds (the floor of the exact rational mean expressed in ms),
failed probes contributing no sample, and a single success returns that
sample's own millisecond value. -/
theorem latency_sampler_mean_or_all_failed (probes : List ProbeOutcome)
    (h10 : probes.length = 10) :
    (measureIdleLatency probes = Except.error "all latency tests failed"
        ↔ successSamples probes = [])
  ∧ (successSamples probes ≠ [] →
      ∃ n, measureIdleLatency probes = Except.ok n
        ∧ (n : ℤ) = ⌊((successSamples probes).sum : ℚ)
            / (((successSamples probes).length : ℚ) * 1000000)⌋)
  ∧ (∀ t, successSamples probes = [t] →
      measureIdleLatency probes = Except.ok (t / 1000000)) := by
  rw [measureIdleLatency_eq]
  refine ⟨?_, ?_, ?_⟩
  · constructor
    · intro he
      by_contra hne
      rw [if_neg (by simpa [List.length_eq_zero] using hne)] at he
      exact Except.noConfusion he
    · intro hnil
      rw [if_pos (by simp [hnil])]
  · intro hne
    have hlen : (successSamples probes).length ≠ 0 := by
      simpa [List.length_eq_zero] using hne
    refine ⟨_, by rw [if_neg hlen], ?_⟩
    rw [Nat.div_div_eq_div_mul]
    have hpos : (0 : ℚ) ≤ ((successSamples probes).sum : ℚ)
        / (((successSamples probes).length * 1000000 : ℕ) : ℚ) := by positivity
    have hfl := Nat.floor_div_nat ((successSamples probes).sum : ℚ)
      ((successSamples probes).length * 1000000)
    rw [Nat.floor_natCast] at hfl
    have := Int.natCast_floor_eq_floor hpos
    rw [hfl] at this
    have hcast : (((successSamples probes).length * 1000000 : ℕ) : ℚ)
        = ((successSamples probes).length : ℚ) * 1000000 := by
      push_cast
      ring
    rw [hcast] at this
    exact this
  · intro t hone
    rw [hone]
    simp

/-- Witness for claim C2: among ten probes with exactly one success the
sampler returns that sample's value, 7ms; with all ten failing it returns
the all-samples-failed error. -/
theorem latency_sampler_mean_or_all_failed_witness :
    measureIdleLatency
      [ProbeOutcome.doError, ProbeOutcome.success 7500000, ProbeOutcome.doError,
       ProbeOutcome.doError, ProbeOutcome.doError, ProbeOutcome.doError,
       ProbeOutcome.doError, ProbeOutcome.doError, ProbeOutcome.doError,
       ProbeOutcome.reqError] = Except.ok 7 := by
  have h := (latency_sampler_mean_or_all_failed
    [ProbeOutcome.doError, ProbeOutcome.success 7500000, ProbeOutcome.doError,
     ProbeOutcome.doError, ProbeOutcome.doError, ProbeOutcome.doError,
     ProbeOutcome.doError, ProbeOutcome.doError, ProbeOutcome.doError,
     ProbeOutcome.reqError] (by decide)).2.2 7500000 (by decide)
  simpa using h

/-- Claim C3: a configuration with non-positive duration or no download
endpoints makes RunQualityTest return the corresponding configuration
error with an empty network-event trace: no latency probe, download or
upload request is issued. -/
theorem config_error_before_any_network_io (config : TestConfig) (env : NetEnv)
    (h : config.TestDuration ≤ 0 ∨ config.TestServers.length = 0) :
    (RunQualityTest (some config) env).2 = []
  ∧ ((RunQualityTest (some config) env).1
        = Except.error "test duration must be positive"
      ∨ (RunQualityTest (some config) env).1
        = Except.error "no download test servers configured") := by
  unfold RunQualityTest
  rcases h with h | h
  · simp [h]
  · by_cases h2 : config.TestDuration ≤ 0
    · simp [h2]
    · simp [h, h2]

/-- Witness for claim C3: duration zero yields the duration error and an
empty trace even in an environment ready to answer requests. -/
theorem config_error_before_any_network_io_witness :
    (RunQualityTest (some { cfgEx with TestDuration := 0 }) envEx).2 = []
  ∧ ((RunQualityTest (some { cfgEx with TestDuration := 0 }) envEx).1
        = Except.error "test duration must be positive"
      ∨ (RunQualityTest (some { cfgEx with TestDuration := 0 }) envEx).1
        = Except.error "no download test servers configured") :=
  config_error_before_any_network_io { cfgEx with TestDuration := 0 } envEx
    (Or.inl (by decide))

/-- Claim C9: a nil configuration does not make RunQualityTest fail; the
default configuration (10s duration, 4 connections, the built-in endpoint
lists, 512KB chunk) is substituted and the run proceeds exactly as if it
had been supplied — in particular the default passes both configuration
checks. -/
theorem nil_config_substitutes_default (env : NetEnv) :
    RunQualityTest none env = RunQualityTest (some DefaultConfig) env
  ∧ DefaultConfig.TestDuration = 10 * 1000000000
  ∧ DefaultConfig.NumConnections = 4
  ∧ DefaultConfig.TestServers
      = ["https://speed.cloudflare.com/__down?bytes=10000000",
         "https://www.google.com/generate_204"]
  ∧ DefaultConfig.UploadServers
      = ["https://httpbin.org/post",
         "https://speed.cloudflare.com/__up?bytes=10000000"]
  ∧ DefaultConfig.UploadChunkSize = 512 * 1024
  ∧ ¬ DefaultConfig.TestDuration ≤ 0
  ∧ DefaultConfig.TestServers.length ≠ 0 :=
  ⟨rfl, rfl, rfl, rfl, rfl, rfl, by decide, by decide⟩

/-- Environment fixture in which every worker attempt fails or carries
zero bytes, so both phases transfer nothing. -/
def envZeroBytes : NetEnv :=
  { envEx with
    downloadWorkerOutcomes := fun _ => [.doError, .body 0, .reqError],
    uploadWorkerOutcomesAt := fun _ _ => [.response 500, .doError, .reqError] }

/-- Configuration fixture with no upload endpoints. -/
def cfgNoUpload : TestConfig := { cfgEx with UploadServers := [] }

/-- Claim C4: a phase in which zero bytes were transferred across all
workers reports a bitrate of 0 Mbps with a nil error — total transfer
failure degrades the score instead of aborting — in the download phase
and, provided the phase actually ran (servers configured, positive
elapsed time), in the upload phase. -/
theorem zero_bytes_reports_zero_mbps (config : TestConfig) (env : NetEnv)
    (hd : totalDownloadBytes config env = 0)
    (hu : totalUploadBytes config (Int.tdiv config.TestDuration 2) env = 0)
    (hus : config.UploadServers.length ≠ 0)
    (hue : env.uploadElapsedNsAt (Int.tdiv config.TestDuration 2) ≠ 0) :
    (∃ l, measureDownloadSpeed config env = Except.ok (0, l))
  ∧ measureUploadSpeed config env = Except.ok 0 := by
  constructor
  · refine ⟨(match measureIdleLatency env.loadedProbes with
      | .error _ => 0
      | .ok l => l), ?_⟩
    simp only [measureDownloadSpeed, hd, computeMilliMbps_zero]
  · simp only [measureUploadSpeed, hu, computeMilliMbps_zero]
    rw [if_neg hus, if_neg hue]

/-- Witness for claim C4: with every attempt failing or empty, the
download phase reports (0, loaded latency) and the upload phase 0, both
without error. -/
theorem zero_bytes_reports_zero_mbps_witness :
    (∃ l, measureDownloadSpeed cfgEx envZeroBytes = Except.ok (0, l))
  ∧ measureUploadSpeed cfgEx envZeroBytes = Except.ok 0 :=
  zero_bytes_reports_zero_mbps cfgEx envZeroBytes (by decide) (by decide)
    (by decide) (by decide)

/-- Claim C5: for a phase with byte total `b` and elapsed nanoseconds
`ns` (elapsed seconds `ns / 1e9`), the reported bitrate is exactly
`b * 8 / (elapsedSeconds * 1_000_000)` Mbps rounded to 3 decimal places,
and it is non-negative; both stage functions report exactly this value. -/
theorem bitrate_formula_and_nonneg (b ns : Nat) (h : 0 < ns) :
    ((computeMilliMbps b ns : ℚ) / 1000
        = specRound3 (((b : ℚ) * 8) / (((ns : ℚ) / 1000000000) * 1000000)))
  ∧ 0 ≤ ((computeMilliMbps b ns : ℚ) / 1000)
  ∧ (∀ config env, env.downloadElapsedNs = ns →
      totalDownloadBytes config env = b →
      ∃ l, measureDownloadSpeed config env
        = Except.ok (computeMilliMbps b ns, l))
  ∧ (∀ config env, config.UploadServers.length ≠ 0 →
      env.uploadElapsedNsAt (Int.tdiv config.TestDuration 2) = ns →
      totalUploadBytes config (Int.tdiv config.TestDuration 2) env = b →
      measureUploadSpeed config env = Except.ok (computeMilliMbps b ns)) := by
  have hns : (ns : ℚ) ≠ 0 := by positivity
  refine ⟨?_, by positivity, ?_, ?_⟩
  · unfold specRound3 specNearest
    have harg : ((b : ℚ) * 8) / (((ns : ℚ) / 1000000000) * 1000000) * 1000
        = ((b * 8000000 : ℕ) : ℚ) / (ns : ℚ) := by
      push_cast
      field_simp
      ring
    rw [harg]
    have key := roundNearestDiv_eq_floor (b * 8000000) ns h
    have keyq : ((roundNearestDiv (b * 8000000) ns : ℕ) : ℚ)
        = ((⌊((b * 8000000 : ℕ) : ℚ) / (ns : ℚ) + 1 / 2⌋ : ℤ) : ℚ) := by
      exact_mod_cast key
    rw [show computeMilliMbps b ns = roundNearestDiv (b * 8000000) ns from rfl, keyq]
  · intro config env he hb
    refine ⟨(match measureIdleLatency env.loadedProbes with
      | .error _ => 0
      | .ok l => l), ?_⟩
    simp only [measureDownloadSpeed, he, hb]
  · intro config env hus he hb
    simp only [measureUploadSpeed, he, hb]
    rw [if_neg hus, if_neg (by omega : ¬ ns = 0)]

/-- Witness for claim C5: 1MB in 1s is reported as 8 Mbps, matching the
spec-side rounding of the exact rational bitrate. -/
theorem bitrate_formula_and_nonneg_witness :
    (0 : Nat) < 1000000000
  ∧ ((computeMilliMbps 1000000 1000000000 : ℚ) / 1000
      = specRound3 (((1000000 : ℚ) * 8)
          / (((1000000000 : ℚ) / 1000000000) * 1000000))) :=
  ⟨by decide,
   by
    have h := (bitrate_formula_and_nonneg 1000000 1000000000 (by decide)).1
    simpa using h⟩

/-- Claim C6: an upload attempt's bytes count toward the shared total
exactly when its response status lies in [200, 400); a failed attempt
contributes nothing, the worker loop retries with no pacing delay (no
sleep event ever occurs in the upload stage), and attempt failures never
surface as a fatal error of the upload stage. -/
theorem upload_attempt_status_gate (chunkSize : Nat) (attempts : List UploadOutcome) :
    uploadWorkerBytes chunkSize attempts
      = (attempts.map (uploadContribution chunkSize)).sum
  ∧ (∀ s, uploadContribution chunkSize (UploadOutcome.response s)
        = if 200 ≤ s ∧ s < 400 then chunkSize else 0)
  ∧ (∀ config env, config.UploadServers.length ≠ 0 →
      env.uploadElapsedNsAt (Int.tdiv config.TestDuration 2) ≠ 0 →
      ∃ q, measureUploadSpeed config env = Except.ok q)
  ∧ (∀ config env, NetEvent.pacingSleep ∉ uploadStageEvents config env) := by
  refine ⟨uploadWorkerBytes_eq_sum chunkSize attempts, fun s => rfl, ?_, ?_⟩
  · intro config env hus hue
    refine ⟨computeMilliMbps
      (totalUploadBytes config (Int.tdiv config.TestDuration 2) env)
      (env.uploadElapsedNsAt (Int.tdiv config.TestDuration 2)), ?_⟩
    simp only [measureUploadSpeed]
    rw [if_neg hus, if_neg hue]
  · intro config env hmem
    unfold uploadStageEvents at hmem
    by_cases hus : config.UploadServers.length = 0
    · rw [if_pos hus] at hmem
      simp at hmem
    · rw [if_neg hus] at hmem
      rw [List.mem_flatten] at hmem
      obtain ⟨l, hl, hel⟩ := hmem
      rw [List.mem_map] at hl
      obtain ⟨i, _, rfl⟩ := hl
      exact absurd (mem_uploadWorkerEvents _ _ hel) (by decide)

/-- Witness for claim C6: of statuses 200, 404, (transport error), 302
only the 200 and the 302 count, and a concrete upload stage with such
attempts still returns a value, not an error. -/
theorem upload_attempt_status_gate_witness :
    uploadWorkerBytes 1000
      [UploadOutcome.response 200, UploadOutcome.response 404,
       UploadOutcome.doError, UploadOutcome.response 302] = 2000
  ∧ ∃ q, measureUploadSpeed cfgEx envEx = Except.ok q := by
  constructor
  · exact (upload_attempt_status_gate 1000
      [UploadOutcome.response 200, UploadOutcome.response 404,
       UploadOutcome.doError, UploadOutcome.response 302]).1.trans (by decide)
  · exact (upload_attempt_status_gate 0 []).2.2.1 cfgEx envEx (by decide) (by decide)

/-- Claim C7: with positive duration, download endpoints configured and no
upload endpoints, RunQualityTest fails with the upload-stage wrapped
error, and only after the idle-latency and download stages ran (the trace
is exactly their events, containing no upload request); moreover the
upload stage consults the environment only at the deadline budget
`TestDuration / 2`. -/
theorem empty_upload_fails_after_earlier_stages (config : TestConfig) (env : NetEnv)
    (hdur : 0 < config.TestDuration) (hdl : config.TestServers.length ≠ 0)
    (hul : config.UploadServers = [])
    (i : Nat) (hidle : measureIdleLatency env.idleProbes = Except.ok i) :
    (RunQualityTest (some config) env).1
      = Except.error "failed to measure upload speed: no upload servers configured"
  ∧ (RunQualityTest (some config) env).2
      = idleLatencyEvents env.idleProbes ++ downloadStageEvents config env
  ∧ NetEvent.uploadPost ∉ (RunQualityTest (some config) env).2
  ∧ (∀ (c : TestConfig) (e₁ e₂ : NetEnv),
      e₁.uploadWorkerOutcomesAt (Int.tdiv c.TestDuration 2)
        = e₂.uploadWorkerOutcomesAt (Int.tdiv c.TestDuration 2) →
      e₁.uploadElapsedNsAt (Int.tdiv c.TestDuration 2)
        = e₂.uploadElapsedNsAt (Int.tdiv c.TestDuration 2) →
      e₁.idleProbes = e₂.idleProbes →
      measureUploadSpeed c e₁ = measureUploadSpeed c e₂) := by
  have hup : measureUploadSpeed config env
      = Except.error "no upload servers configured" := by
    simp only [measureUploadSpeed]
    rw [if_pos (by rw [hul]; rfl)]
  have huse : uploadStageEvents config env = [] := by
    unfold uploadStageEvents
    rw [if_pos (by rw [hul]; rfl)]
  have hrun : RunQualityTest (some config) env
      = (Except.error "failed to measure upload speed: no upload servers configured",
         idleLatencyEvents env.idleProbes ++ downloadStageEvents config env
           ++ uploadStageEvents config env) := by
    rw [RunQualityTest_some, if_neg (show ¬ config.TestDuration ≤ 0 by omega),
      if_neg hdl]
    simp only [hidle, measureDownloadSpeed, hup]
    rfl
  refine ⟨by rw [hrun], by rw [hrun, huse, List.append_nil], ?_, ?_⟩
  · rw [hrun, huse, List.append_nil]
    intro hmem
    rw [List.mem_append] at hmem
    rcases hmem with hmem | hmem
    · rcases mem_idleLatencyEvents _ _ hmem with h1 | h1 <;> exact absurd h1 (by decide)
    · rcases mem_downloadStageEvents _ _ _ hmem with h1 | h1 | h1 <;>
        exact absurd h1 (by decide)
  · intro c e₁ e₂ h1 h2 _
    simp only [measureUploadSpeed, totalUploadBytes, h1, h2]

/-- Witness for claim C7: a run with no upload endpoints and otherwise
healthy stages returns the wrapped upload error with no POST in its
trace. -/
theorem empty_upload_fails_after_earlier_stages_witness :
    (RunQualityTest (some cfgNoUpload) envEx).1
      = Except.error "failed to measure upload speed: no upload servers configured"
  ∧ NetEvent.uploadPost ∉ (RunQualityTest (some cfgNoUpload) envEx).2 := by
  have h := empty_upload_fails_after_earlier_stages cfgNoUpload envEx
    (by decide) (by decide) rfl 4 rfl
  exact ⟨h.1, h.2.2.1⟩

/-- Ten probe outcomes for the claim C8 counterexample: the first request
fails, the remaining nine succeed. -/
def probesC8 : List ProbeOutcome :=
  [.doError, .success 1000000, .success 1000000, .success 1000000,
   .success 1000000, .success 1000000, .success 1000000, .success 1000000,
   .success 1000000, .success 1000000]

/-- Counterexample to claim C8: in a 10-probe execution whose first
request fails, the first two issued GET requests are adjacent in the
event trace — no 100ms pacing delay separates them, contradicting
"separated by a fixed 100ms pacing delay regardless of whether the
earlier request succeeded or failed". -/
theorem pacing_delay_counterexample :
    probesC8.length = 10 ∧ gapsPaced (idleLatencyEvents probesC8) = false := by
  decide

/-- Amended claim C8: the 100ms pacing delay follows each successful
request (including the last); after a failed request the next request is
issued immediately with no delay. -/
theorem pacing_delay_only_after_success (l₁ l₂ : List ProbeOutcome) (t : Nat) :
    idleLatencyEvents (l₁ ++ ProbeOutcome.success t :: l₂)
      = idleLatencyEvents l₁
          ++ NetEvent.latencyGet :: NetEvent.pacingSleep :: idleLatencyEvents l₂
  ∧ idleLatencyEvents (l₁ ++ ProbeOutcome.doError :: l₂)
      = idleLatencyEvents l₁ ++ NetEvent.latencyGet :: idleLatencyEvents l₂ := by
  refine ⟨?_, ?_⟩
  · induction l₁ with
    | nil => rfl
    | cons p rest ih => cases p <;> simp [idleLatencyEvents, ih]
  · induction l₁ with
    | nil => rfl
    | cons p rest ih => cases p <;> simp [idleLatencyEvents, ih]

/-- Claim C10: when every loaded-latency probe fails, the error of the
loaded sample is discarded, loadedLatencyMs is recorded as 0, the run
still completes, and the label is High since 0 < 200. -/
theorem loaded_failure_gives_zero_and_high (config : TestConfig) (env : NetEnv)
    (hdur : 0 < config.TestDuration) (hdl : config.TestServers.length ≠ 0)
    (i : Nat) (hidle : measureIdleLatency env.idleProbes = Except.ok i)
    (hloaded : measureIdleLatency env.loadedProbes
        = Except.error "all latency tests failed")
    (hus : config.UploadServers.length ≠ 0)
    (hue : env.uploadElapsedNsAt (Int.tdiv config.TestDuration 2) ≠ 0) :
    ∃ r, (RunQualityTest (some config) env).1 = Except.ok r
      ∧ r.ResponsivenessMs = 0 ∧ r.Responsiveness = "High" := by
  have hup : measureUploadSpeed config env
      = Except.ok (computeMilliMbps
          (totalUploadBytes config (Int.tdiv config.TestDuration 2) env)
          (env.uploadElapsedNsAt (Int.tdiv config.TestDuration 2))) := by
    simp only [measureUploadSpeed]
    rw [if_neg hus, if_neg hue]
  have hdlspeed : measureDownloadSpeed config env
      = Except.ok (computeMilliMbps (totalDownloadBytes config env)
          env.downloadElapsedNs, 0) := by
    simp only [measureDownloadSpeed, hloaded]
  rw [RunQualityTest_some, if_neg (show ¬ config.TestDuration ≤ 0 by omega),
    if_neg hdl]
  simp only [hidle, hdlspeed, hup]
  exact ⟨_, rfl, rfl, rfl⟩

/-- Witness for claim C10: a run whose ten loaded probes all fail
completes with loaded latency 0 and label High. -/
theorem loaded_failure_gives_zero_and_high_witness :
    ∃ r, (RunQualityTest (some cfgEx) envLoadedFail).1 = Except.ok r
      ∧ r.ResponsivenessMs = 0 ∧ r.Responsiveness = "High" :=
  loaded_failure_gives_zero_and_high cfgEx envLoadedFail (by decide) (by decide)
    4 rfl rfl (by decide) (by decide)

end NetworkQuality
